import Mathlib

/-!
Shallow embedding of the VibeChat backend (`main.py`, `schemas.py`): a REST
messaging service over a MongoDB-style document store.  Documents returned to
clients are plain dictionaries; the helpers `oid_str` and `serialize` from
`main.py` are modelled over a generic BSON-like value type, while the three
collections (`user`, `chat`, `message`) are modelled as lists of structured
documents carrying the fields the handlers read and write.  The persistence
gateway (`database.py`: `create_document`, `get_documents`) is not part of the
sources and is modelled from the spec.
-/

/-- A BSON-like value as it appears in a stored document.  `oid s` is a native
`ObjectId` whose canonical (lowercase hex) string form is `s`; everything else
is an ordinary JSON-ish value. -/
inductive Value where
  | oid (s : String)
  | str (s : String)
  | nat (n : Nat)
  | bool (b : Bool)
  | strlist (vs : List String)
  | null
deriving DecidableEq, Repr

/-- A document is a Python dict: ordered key/value pairs with distinct keys. -/
abbrev Doc := List (String × Value)

/-- `isObjectId v` mirrors Python's `isinstance(v, ObjectId)`. -/
def Value.isObjectId : Value → Bool
  | .oid _ => true
  | _ => false

/-- `oid_str` from `main.py`: `str(value)` when the value is an `ObjectId`,
otherwise the value unchanged. -/
def oid_str (value : Value) : Value :=
  if value.isObjectId then
    match value with
    | .oid s => .str s
    | v => v
  else value

/-- Python dict assignment `out[k] = v`: overwrite in place when the key is
present, otherwise append (insertion order is preserved). -/
def dictInsert (out : Doc) (k : String) (v : Value) : Doc :=
  if out.any (fun kv => kv.1 == k) then
    out.map (fun kv => if kv.1 == k then (k, v) else kv)
  else out ++ [(k, v)]

/-- The loop body of `serialize`: fold the items of `doc` into the fresh dict
`out`, renaming `_id` to `id` via `oid_str`, stringifying any other
`ObjectId` value, and copying everything else. -/
def serializeAux : Doc → Doc → Doc
  | out, [] => out
  | out, (k, v) :: rest =>
    if k == "_id" then serializeAux (dictInsert out "id" (oid_str v)) rest
    else if v.isObjectId then serializeAux (dictInsert out k (oid_str v)) rest
    else serializeAux (dictInsert out k v) rest

/-- `serialize` from `main.py` on a (present) document: an empty dict is falsy
in Python, so it is returned unchanged; otherwise the items are folded into a
fresh dict. -/
def serialize (doc : Doc) : Doc :=
  if doc = [] then doc else serializeAux [] doc

/-- `serialize` on a possibly absent document: `None` is falsy and returned
unchanged. -/
def serializeOpt : Option Doc → Option Doc
  | none => none
  | some d => some (serialize d)

/-! ## Collections

Structured views of the three collections.  Every field a handler writes is
present; `participants` is optional because the store is schema-flexible and
`send_message` explicitly guards its absence with `chat.get("participants", [])`.
Timestamps and ObjectIds are drawn from a monotone counter `clock` in the
database state, modelling "store-assigned at creation". -/

/-- A stored `user` document (`schemas.py`: name, avatar, status). -/
structure UserDoc where
  oid : String
  name : String
  avatar : Option String
  status : Option String
deriving DecidableEq, Repr

/-- A stored `chat` document (`schemas.py` plus the implicitly maintained
`updated_at`).  `participants = none` models a document lacking the field. -/
structure ChatDoc where
  oid : String
  title : Option String
  participants : Option (List String)
  is_group : Bool
  updated_at : Nat
deriving DecidableEq, Repr

/-- A stored `message` document (`schemas.py` plus the store-assigned
`created_at`). -/
structure MessageDoc where
  oid : String
  chat_id : String
  sender_id : String
  content : String
  type : String
  created_at : Nat
deriving DecidableEq, Repr

/-- The document database: the three collections plus a monotone counter used
for fresh ObjectIds and timestamps. -/
structure DB where
  users : List UserDoc
  chats : List ChatDoc
  messages : List MessageDoc
  clock : Nat
deriving DecidableEq, Repr

/-- Lowercase hex rendering of the fresh-id counter, padded to the 24
characters of an ObjectId. -/
def oidOfNat (n : Nat) : String :=
  let ds := Nat.toDigits 16 n
  String.mk (List.replicate (24 - ds.length) '0' ++ ds)

/-- A hexadecimal digit, upper or lower case. -/
def isHexChar (c : Char) : Bool :=
  c.isDigit || ('a' ≤ c && c ≤ 'f') || ('A' ≤ c && c ≤ 'F')

/-- `ObjectId(s)` succeeds exactly on 24-character hex strings. -/
def isValidObjectId (s : String) : Bool :=
  s.length == 24 && s.toList.all isHexChar

/-- The canonical string of `ObjectId(s)`: bson lowercases the hex. -/
def parseOid (s : String) : String := String.mk (s.toList.map Char.toLower)

/-- An optional string as stored (Python `None` becomes BSON null). -/
def optVal : Option String → Value
  | none => .null
  | some s => .str s

/-- The dict held for a `user` document. -/
def userToDoc (u : UserDoc) : Doc :=
  [("_id", .oid u.oid), ("name", .str u.name), ("avatar", optVal u.avatar),
   ("status", optVal u.status)]

/-- The dict held for a `chat` document; the `participants` entry is absent
when the field is missing. -/
def chatToDoc (c : ChatDoc) : Doc :=
  [("_id", .oid c.oid), ("title", optVal c.title)] ++
  (match c.participants with
   | some ps => [("participants", .strlist ps)]
   | none => []) ++
  [("is_group", .bool c.is_group), ("updated_at", .nat c.updated_at)]

/-- The dict held for a `message` document. -/
def msgToDoc (m : MessageDoc) : Doc :=
  [("_id", .oid m.oid), ("chat_id", .str m.chat_id),
   ("sender_id", .str m.sender_id), ("content", .str m.content),
   ("type", .str m.type), ("created_at", .nat m.created_at)]

/-! ## Request models and handler responses -/

/-- `CreateChat` from `main.py`. -/
structure CreateChat where
  participants : List String
  title : Option String
  is_group : Bool
deriving DecidableEq, Repr

/-- `CreateMessage` from `main.py`. -/
structure CreateMessage where
  chat_id : String
  sender_id : String
  content : String
  type : String
deriving DecidableEq, Repr

/-- A raw JSON body for the messages endpoint, before shape validation:
each declared field either present (with a string value) or missing. -/
structure RawCreateMessage where
  chat_id : Option String
  sender_id : Option String
  content : Option String
  type : Option String
deriving DecidableEq, Repr

/-- Pydantic shape validation of `CreateMessage`: `chat_id`, `sender_id` and
`content` are required (`none` means the request fails with 422); `type`
defaults to `"text"`.  No other constraint is declared on the fields. -/
def validate_create_message (r : RawCreateMessage) : Option CreateMessage :=
  match r.chat_id, r.sender_id, r.content with
  | some c, some s, some ct =>
    some { chat_id := c, sender_id := s, content := ct, type := r.type.getD "text" }
  | _, _, _ => none

/-- The outcome of a create/send handler: a JSON document (possibly `null`),
an `HTTPException` with its status code and detail, or an exception that no
handler catches (surfaced by the framework as a 500 server error). -/
inductive Resp where
  | ok (doc : Option Doc)
  | http (status : Nat) (detail : String)
  | uncaught (msg : String)
deriving DecidableEq, Repr

/-! ## Persistence gateway (not in the sources; modelled from the spec) -/

/-- Modelled from the spec: `create_document` of `database.py` (absent from
the sources) inserts one `chat` document and returns its new identifier; the
store assigns a fresh ObjectId and sets `updated_at` implicitly on chat
creation. -/
def create_document_chat (db : DB) (payload : CreateChat) : DB × String :=
  let cid := oidOfNat db.clock
  let c : ChatDoc :=
    { oid := cid, title := payload.title, participants := some payload.participants,
      is_group := payload.is_group, updated_at := db.clock }
  ({ db with chats := db.chats ++ [c], clock := db.clock + 1 }, cid)

/-- Modelled from the spec: `create_document` of `database.py` (absent from
the sources) inserts one `message` document and returns its new identifier;
the store assigns a fresh ObjectId and the `created_at` timestamp. -/
def create_document_message (db : DB) (payload : CreateMessage) : DB × String :=
  let mid := oidOfNat db.clock
  let m : MessageDoc :=
    { oid := mid, chat_id := payload.chat_id, sender_id := payload.sender_id,
      content := payload.content, type := payload.type, created_at := db.clock }
  ({ db with messages := db.messages ++ [m], clock := db.clock + 1 }, mid)

/-- Python truthiness of an `Optional[str]`: `None` and `""` are falsy. -/
def pyTruthyStr : Option String → Bool
  | none => false
  | some s => !(s == "")

/-- `charsLead need hay`: `need` is an initial segment of `hay`. -/
def charsLead : List Char → List Char → Bool
  | [], _ => true
  | _ :: _, [] => false
  | a :: as, b :: bs => a == b && charsLead as bs

/-- `hasInfix hay need`: `need` occurs contiguously inside `hay`. -/
def hasInfix : List Char → List Char → Bool
  | [], need => need.isEmpty
  | hay@(_ :: t), need => charsLead need hay || hasInfix t need

/-- Case-insensitive containment of `q` in `name`, modelling the Mongo filter
`{"name": {"$regex": q, "$options": "i"}}` for a plain (metacharacter-free)
search string. -/
def containsCI (name q : String) : Bool :=
  hasInfix name.toLower.toList q.toLower.toList

/-- `update_one`: rewrite the `updated_at` field of the first chat whose
`_id` matches, leaving every other document and field alone. -/
def updateFirst : List ChatDoc → String → Nat → List ChatDoc
  | [], _, _ => []
  | c :: rest, oid, ts =>
    if c.oid == oid then { c with updated_at := ts } :: rest
    else c :: updateFirst rest oid ts

/-! ## Handlers (`main.py`) -/

/-- GET `/api/users`: an optional search string; a falsy `q` (absent or empty)
leaves the filter empty, otherwise the name filter applies.  Results are
store-native order, each serialized. -/
def list_users (db : DB) (q : Option String) : List Doc :=
  let docs :=
    if pyTruthyStr q then db.users.filter (fun u => containsCI u.name (q.getD ""))
    else db.users
  docs.map (fun d => serialize (userToDoc d))

/-- Sorting key for messages: `created_at` ascending. -/
def msgLe (a b : MessageDoc) : Prop := a.created_at ≤ b.created_at

instance : DecidableRel msgLe := fun a b => Nat.decLe a.created_at b.created_at

instance : IsTotal MessageDoc msgLe := ⟨fun a b => Nat.le_total a.created_at b.created_at⟩

instance : IsTrans MessageDoc msgLe := ⟨fun _ _ _ => Nat.le_trans⟩

/-- Sorting key for chats: `updated_at` descending (`reverse=True`). -/
def chatGe (a b : ChatDoc) : Prop := b.updated_at ≤ a.updated_at

instance : DecidableRel chatGe := fun a b => Nat.decLe b.updated_at a.updated_at

instance : IsTotal ChatDoc chatGe := ⟨fun a b => Nat.le_total b.updated_at a.updated_at⟩

instance : IsTrans ChatDoc chatGe := ⟨fun _ _ _ h h' => Nat.le_trans h' h⟩

/-- GET `/api/chats?user_id=...`: the chats whose `participants` array
contains `user_id` (a document lacking the field matches nothing), sorted by
`updated_at` descending, each serialized. -/
def list_chats (db : DB) (user_id : String) : List Doc :=
  let docs := db.chats.filter (fun c => (c.participants.getD []).contains user_id)
  let docs := List.insertionSort chatGe docs
  docs.map (fun d => serialize (chatToDoc d))

/-- GET `/api/messages?chat_id=...`: the messages with that `chat_id`, sorted
by `created_at` ascending, each serialized. -/
def list_messages (db : DB) (chat_id : String) : List Doc :=
  let docs := db.messages.filter (fun m => m.chat_id == chat_id)
  let docs := List.insertionSort msgLe docs
  docs.map (fun d => serialize (msgToDoc d))

/-- POST `/api/chats`: reject a non-group chat with fewer than two
participants, otherwise insert and re-read the created document.  The id the
gateway returns is a well-formed ObjectId, so the `ObjectId(chat_id)`
re-parse cannot fail. -/
def create_chat (db : DB) (payload : CreateChat) : DB × Resp :=
  if payload.participants.length < 2 ∧ payload.is_group = false then
    (db, .http 400 "A direct chat requires 2 participants")
  else
    let res := create_document_chat db payload
    let doc := res.1.chats.find? (fun c => c.oid == res.2)
    (res.1, .ok (serializeOpt (doc.map chatToDoc)))

/-- POST `/api/messages`: `ObjectId(payload.chat_id)` raises an uncaught
`InvalidId` on a malformed id; an existing chat is required (404) and the
sender must be among its participants, defaulting to the empty list when the
field is absent (403); then the message is inserted, the chat's `updated_at`
is set to the re-read message's `created_at`, and the message is re-read and
returned. -/
def send_message (db : DB) (payload : CreateMessage) : DB × Resp :=
  if ¬ isValidObjectId payload.chat_id then
    (db, .uncaught "bson.errors.InvalidId")
  else
    match db.chats.find? (fun c => c.oid == parseOid payload.chat_id) with
    | none => (db, .http 404 "Chat not found")
    | some chat =>
      if ¬ (chat.participants.getD []).contains payload.sender_id then
        (db, .http 403 "Sender not part of this chat")
      else
        let res := create_document_message db payload
        match res.1.messages.find? (fun m => m.oid == res.2) with
        | none => (res.1, .uncaught "TypeError: NoneType is not subscriptable")
        | some m =>
          let db2 := { res.1 with chats := updateFirst res.1.chats chat.oid m.created_at }
          let doc := db2.messages.find? (fun x => x.oid == res.2)
          (db2, .ok (serializeOpt (doc.map msgToDoc)))

/-- Discriminator: did the handler return a 200 JSON body? -/
def Resp.isOk : Resp → Bool
  | .ok _ => true
  | _ => false

/-! ## Concrete fixtures used by witnesses and counterexamples -/

/-- A well-formed ObjectId string. -/
def oidA : String := "aaaaaaaaaaaaaaaaaaaaaaaa"

/-- A second well-formed ObjectId string, distinct from `oidA`. -/
def oidB : String := "bbbbbbbbbbbbbbbbbbbbbbbb"

/-- A direct chat between `u1` and `u2`. -/
def chat1 : ChatDoc :=
  { oid := oidA, title := none, participants := some ["u1", "u2"],
    is_group := false, updated_at := 3 }

/-- A chat document lacking the `participants` field. -/
def chatNoParts : ChatDoc :=
  { oid := oidB, title := none, participants := none,
    is_group := false, updated_at := 4 }

/-- A small database: one direct chat, one chat without `participants`, no
messages yet. -/
def dbEx : DB :=
  { users := [], chats := [chat1, chatNoParts], messages := [], clock := 7 }

/-! ## Claims -/

/-- C9: for the user-list operation, an empty-string search filter behaves
exactly like an absent one — the filter dict stays empty and every user
document is returned (serialized), because Python's truthiness treats `""`
as falsy. -/
theorem c9_empty_query_unfiltered (db : DB) :
    list_users db (some "") = list_users db none ∧
    list_users db none = db.users.map (fun u => serialize (userToDoc u)) := by
  constructor <;> rfl

/-- C5: a malformed inbound `chat_id` does NOT produce a client-error
response: `ObjectId(payload.chat_id)` raises `InvalidId`, which no handler
catches, so the framework surfaces a 500 server error.  This contradicts the
spec's requirement of "failing with a client error on malformed input". -/
theorem c5_malformed_id_uncaught :
    send_message dbEx { chat_id := "bad", sender_id := "u1", content := "hi", type := "text" }
      = (dbEx, Resp.uncaught "bson.errors.InvalidId") := by
  rfl

/-- C6 counterexample: creating a chat with an EMPTY `participants` list and
`is_group = true` does not fail — the handler's only guard requires
`not is_group` — so a chat document is persisted and a 200 body returned. -/
theorem c6_counterexample :
    (create_chat dbEx { participants := [], title := none, is_group := true }).2.isOk = true ∧
    (create_chat dbEx { participants := [], title := none, is_group := true }).1.chats.length
      = dbEx.chats.length + 1 := by
  constructor <;> rfl

/-- C6 amended: an empty `participants` list is rejected (400) only when
`is_group` is false; with `is_group = true` the empty list is accepted and
the chat (with empty participants) is persisted. -/
theorem c6_empty_participants (db : DB) (payload : CreateChat)
    (hp : payload.participants = []) :
    (payload.is_group = false →
      create_chat db payload = (db, Resp.http 400 "A direct chat requires 2 participants")) ∧
    (payload.is_group = true →
      (create_chat db payload).2.isOk = true ∧
      (create_chat db payload).1.chats = db.chats ++
        [{ oid := oidOfNat db.clock, title := payload.title, participants := some [],
           is_group := true, updated_at := db.clock }]) := by
  constructor
  · intro hg
    simp [create_chat, hp, hg]
  · intro hg
    refine ⟨by simp [create_chat, hp, hg, Resp.isOk], ?_⟩
    simp [create_chat, hp, hg, create_document_chat]

/-- C6 witness: both branches of the amended statement at concrete inputs. -/
theorem c6_witness :
    create_chat dbEx { participants := [], title := none, is_group := false }
      = (dbEx, Resp.http 400 "A direct chat requires 2 participants") ∧
    (create_chat dbEx { participants := [], title := none, is_group := true }).2.isOk = true :=
  ⟨(c6_empty_participants dbEx _ rfl).1 rfl, ((c6_empty_participants dbEx _ rfl).2 rfl).1⟩

/-- C3: creating a non-group chat with fewer than two participants fails with
the 400 validation error and persists nothing; creating a group chat with a
non-empty participant list succeeds and persists the chat. -/
theorem c3_create_chat_validation (db : DB) (payload : CreateChat) :
    (payload.is_group = false → payload.participants.length < 2 →
      create_chat db payload = (db, Resp.http 400 "A direct chat requires 2 participants")) ∧
    (payload.is_group = true → payload.participants ≠ [] →
      (create_chat db payload).2.isOk = true ∧
      (create_chat db payload).1.chats = db.chats ++
        [{ oid := oidOfNat db.clock, title := payload.title,
           participants := some payload.participants, is_group := true,
           updated_at := db.clock }]) := by
  constructor
  · intro hg hlen
    simp [create_chat, hg, hlen]
  · intro hg _
    refine ⟨by simp [create_chat, hg, Resp.isOk], ?_⟩
    simp [create_chat, hg, create_document_chat]

/-- C3 witness: a one-participant direct chat is rejected; a one-participant
group chat is created. -/
theorem c3_witness :
    create_chat dbEx { participants := ["u1"], title := none, is_group := false }
      = (dbEx, Resp.http 400 "A direct chat requires 2 participants") ∧
    (create_chat dbEx { participants := ["u1"], title := none, is_group := true }).2.isOk = true :=
  ⟨(c3_create_chat_validation dbEx _).1 rfl (by decide),
   ((c3_create_chat_validation dbEx _).2 rfl (by decide)).1⟩

/-- C7 counterexample: a payload whose `content` is the empty string passes
pydantic shape validation (`content: str` has no non-empty constraint) and,
sent to an existing chat by a participant, a message IS persisted. -/
theorem c7_counterexample :
    validate_create_message
        { chat_id := some oidA, sender_id := some "u1", content := some "", type := none }
      = some { chat_id := oidA, sender_id := "u1", content := "", type := "text" } ∧
    (send_message dbEx { chat_id := oidA, sender_id := "u1", content := "", type := "text" }).1.messages.length
      = dbEx.messages.length + 1 ∧
    (send_message dbEx { chat_id := oidA, sender_id := "u1", content := "", type := "text" }).2.isOk
      = true := by
  refine ⟨rfl, rfl, rfl⟩

/-- C7 amended: `content` is required — a body missing it fails shape
validation (422) — but it is not required to be non-empty: any present
string value, the empty string included, passes validation. -/
theorem c7_content_validation :
    (∀ r : RawCreateMessage, r.content = none → validate_create_message r = none) ∧
    (∀ (r : RawCreateMessage) (c s ct : String),
      r.chat_id = some c → r.sender_id = some s → r.content = some ct →
      validate_create_message r
        = some { chat_id := c, sender_id := s, content := ct, type := r.type.getD "text" }) := by
  constructor
  · intro r h
    unfold validate_create_message
    rw [h]
    cases r.chat_id <;> cases r.sender_id <;> rfl
  · intro r c s ct h1 h2 h3
    unfold validate_create_message
    rw [h1, h2, h3]

/-- C7 witness: both branches of the amended statement at concrete bodies. -/
theorem c7_witness :
    validate_create_message { chat_id := some "a", sender_id := some "b", content := none, type := none }
      = none ∧
    validate_create_message { chat_id := some "a", sender_id := some "b", content := some "", type := none }
      = some { chat_id := "a", sender_id := "b", content := "", type := "text" } :=
  ⟨c7_content_validation.1 _ rfl, c7_content_validation.2 _ "a" "b" "" rfl rfl rfl⟩

/-- C10: a send into an existing chat document that lacks the `participants`
field does not crash: `chat.get("participants", [])` defaults to the empty
list, in which no `sender_id` occurs, so every sender receives the 403 and
the store is unchanged. -/
theorem c10_missing_participants_forbidden (db : DB) (p : CreateMessage) (chat : ChatDoc)
    (hv : isValidObjectId p.chat_id = true)
    (hf : db.chats.find? (fun c => c.oid == parseOid p.chat_id) = some chat)
    (hp : chat.participants = none) :
    send_message db p = (db, Resp.http 403 "Sender not part of this chat") := by
  unfold send_message
  rw [if_neg (by simp [hv])]
  rw [hf]
  simp [hp]

/-- C10 witness: sending to the participant-less chat `chatNoParts` yields
the 403 with the store untouched. -/
theorem c10_witness :
    send_message dbEx { chat_id := oidB, sender_id := "u1", content := "hi", type := "text" }
      = (dbEx, Resp.http 403 "Sender not part of this chat") :=
  c10_missing_participants_forbidden dbEx _ chatNoParts (by decide) (by decide) rfl

/-- C2: for a well-formed `chat_id`, a send into a nonexistent chat fails
with 404 and a send by a non-participant fails with 403; in both cases the
database — the message store included — is returned unchanged, since the
exception is raised before any insert. -/
theorem c2_send_message_errors (db : DB) (p : CreateMessage)
    (hv : isValidObjectId p.chat_id = true) :
    (db.chats.find? (fun c => c.oid == parseOid p.chat_id) = none →
      send_message db p = (db, Resp.http 404 "Chat not found")) ∧
    (∀ chat : ChatDoc,
      db.chats.find? (fun c => c.oid == parseOid p.chat_id) = some chat →
      (chat.participants.getD []).contains p.sender_id = false →
      send_message db p = (db, Resp.http 403 "Sender not part of this chat")) := by
  constructor
  · intro hf
    unfold send_message
    rw [if_neg (by simp [hv])]
    rw [hf]
  · intro chat hf hsender
    unfold send_message
    rw [if_neg (by simp [hv]), hf]
    have hns : p.sender_id ∉ chat.participants.getD [] := by simpa using hsender
    simp [hns]

/-- C2 witness: a send to an absent (but well-formed) chat id yields the 404,
and a send by a stranger to the existing chat yields the 403, both leaving
`dbEx` unchanged. -/
theorem c2_witness :
    send_message dbEx { chat_id := "cccccccccccccccccccccccc", sender_id := "u1", content := "hi", type := "text" }
      = (dbEx, Resp.http 404 "Chat not found") ∧
    send_message dbEx { chat_id := oidA, sender_id := "stranger", content := "hi", type := "text" }
      = (dbEx, Resp.http 403 "Sender not part of this chat") :=
  ⟨(c2_send_message_errors dbEx _ (by decide)).1 (by decide),
   (c2_send_message_errors dbEx _ (by decide)).2 chat1 (by decide) (by decide)⟩

/-- C4: listing messages returns exactly the messages with the given
`chat_id`, in non-decreasing `created_at` order; listing chats returns
exactly the chats whose `participants` contain the given user, in
non-increasing `updated_at` order (every stored chat carries the
`updated_at` the store set at creation, so message-less chats participate
with their creation timestamp). -/
theorem c4_listing_sorted (db : DB) (chat_id user_id : String) :
    (∃ ms : List MessageDoc,
      list_messages db chat_id = ms.map (fun m => serialize (msgToDoc m)) ∧
      ms.Perm (db.messages.filter (fun m => m.chat_id == chat_id)) ∧
      List.Sorted msgLe ms) ∧
    (∃ cs : List ChatDoc,
      list_chats db user_id = cs.map (fun c => serialize (chatToDoc c)) ∧
      cs.Perm (db.chats.filter (fun c => (c.participants.getD []).contains user_id)) ∧
      List.Sorted chatGe cs) := by
  constructor
  · exact ⟨List.insertionSort msgLe (db.messages.filter (fun m => m.chat_id == chat_id)),
      rfl, List.perm_insertionSort msgLe _, List.sorted_insertionSort msgLe _⟩
  · exact ⟨List.insertionSort chatGe (db.chats.filter (fun c => (c.participants.getD []).contains user_id)),
      rfl, List.perm_insertionSort chatGe _, List.sorted_insertionSort chatGe _⟩

/-! ## C1: the identifier normalizer -/

/-- The normalizer contract exactly as the spec words it: the `_id` entry is
renamed to `id` in canonical string form, any other entry holding an
ObjectId is stringified in place, and every remaining entry passes through
unchanged.  Stated over dict lookups so it can be compared with `serialize`. -/
def serializeSpec (doc out : Doc) : Prop :=
  (∀ s : String, doc.lookup "_id" = some (.oid s) → out.lookup "id" = some (.str s)) ∧
  (∀ (k s : String), k ≠ "_id" → doc.lookup k = some (.oid s) →
    out.lookup k = some (.str s)) ∧
  (∀ (k : String) (v : Value), k ≠ "_id" → v.isObjectId = false →
    doc.lookup k = some v → out.lookup k = some v)

/-- C1 counterexample: a document carrying both a native `_id` and an
ordinary field named `id` cannot satisfy the claim — the output dict has a
single `id` slot, and in `serialize` the later write wins, so the renamed
`_id` value is lost. -/
theorem c1_counterexample :
    ¬ serializeSpec [("_id", .oid oidA), ("id", .str "x")]
        (serialize [("_id", .oid oidA), ("id", .str "x")]) := by
  rintro ⟨h1, -, h3⟩
  have e1 := h1 oidA (by rfl)
  have e3 := h3 "id" (.str "x") (by decide) (by decide) (by rfl)
  rw [e1] at e3
  exact absurd e3 (by decide)

/-- What the loop writes for one entry: `_id` becomes `id`, and every value
goes through `oid_str` (the identity on non-ObjectIds). -/
def renameKV (kv : String × Value) : String × Value :=
  if kv.1 = "_id" then ("id", oid_str kv.2) else (kv.1, oid_str kv.2)

/-- `oid_str` leaves non-ObjectId values alone. -/
theorem oid_str_of_not_oid {v : Value} (h : v.isObjectId = false) : oid_str v = v := by
  unfold oid_str
  rw [h]
  rfl

/-- Writing a fresh key into a dict appends the pair. -/
theorem dictInsert_of_not_mem (out : Doc) (k : String) (v : Value)
    (h : k ∉ out.map Prod.fst) : dictInsert out k v = out ++ [(k, v)] := by
  unfold dictInsert
  rw [if_neg]
  intro hc
  rw [List.any_eq_true] at hc
  obtain ⟨kv, hmem, hkv⟩ := hc
  exact h (List.mem_map.mpr ⟨kv, hmem, beq_iff_eq.mp hkv⟩)

/-- The three branches of the loop body all write the renamed entry. -/
theorem serializeAux_cons (out : Doc) (k : String) (v : Value) (rest : Doc) :
    serializeAux out ((k, v) :: rest)
      = serializeAux (dictInsert out (renameKV (k, v)).1 (renameKV (k, v)).2) rest := by
  simp only [serializeAux, renameKV]
  by_cases hk : k = "_id"
  · simp [hk]
  · by_cases hv : v.isObjectId
    · simp [hk, hv]
    · have hv' : v.isObjectId = false := by simpa using hv
      simp [hk, hv', oid_str_of_not_oid hv']

/-- The serialization loop, run with out-keys disjoint from the incoming
renamed keys, appends the renamed entries in order. -/
theorem serializeAux_append (ds : Doc) :
    ∀ out : Doc, ((out ++ ds.map renameKV).map Prod.fst).Nodup →
      serializeAux out ds = out ++ ds.map renameKV := by
  induction ds with
  | nil => intro out _; simp [serializeAux]
  | cons kv rest ih =>
    intro out h
    obtain ⟨k, v⟩ := kv
    simp only [List.map_cons] at h ⊢
    have hkey : (renameKV (k, v)).1 ∉ out.map Prod.fst := by
      intro hmem
      rw [List.map_append] at h
      exact List.disjoint_of_nodup_append h hmem (by simp)
    rw [serializeAux_cons, dictInsert_of_not_mem _ _ _ hkey]
    have hih := ih (out ++ [((renameKV (k, v)).1, (renameKV (k, v)).2)])
      (by simpa [List.append_assoc] using h)
    rw [hih]
    simp [List.append_assoc]

/-- The renamed keys are the original keys with `_id` replaced by `id`. -/
theorem keys_map_renameKV (doc : Doc) :
    (doc.map renameKV).map Prod.fst
      = (doc.map Prod.fst).map (fun k => if k = "_id" then "id" else k) := by
  rw [List.map_map, List.map_map]
  apply List.map_congr_left
  intro kv _
  by_cases hk : kv.1 = "_id" <;> simp [renameKV, hk]

/-- C1 amended: on a document that does not carry BOTH a `_id` and an `id`
field, `serialize` renames `_id` to `id` in canonical string form,
stringifies every other ObjectId value in place, and passes all other
entries through unchanged (one map over the entries); the empty document is
returned as the empty dict and an absent one as `None`. -/
theorem c1_serialize_renames_id (doc : Doc)
    (hnd : (doc.map Prod.fst).Nodup)
    (hcol : ¬ ("_id" ∈ doc.map Prod.fst ∧ "id" ∈ doc.map Prod.fst)) :
    serialize doc = doc.map renameKV ∧ serializeOpt none = none := by
  refine ⟨?_, rfl⟩
  by_cases hd : doc = []
  · subst hd; rfl
  · unfold serialize
    rw [if_neg hd]
    have hnodup : ((([] : Doc) ++ doc.map renameKV).map Prod.fst).Nodup := by
      rw [List.nil_append, keys_map_renameKV]
      by_cases hid : "_id" ∈ doc.map Prod.fst
      · have hid2 : "id" ∉ doc.map Prod.fst := fun hmem => hcol ⟨hid, hmem⟩
        apply List.Nodup.map_on ?_ hnd
        intro a ha b hb hab
        by_cases ha' : a = "_id" <;> by_cases hb' : b = "_id"
        · exact ha'.trans hb'.symm
        · rw [ha', if_pos rfl, if_neg hb'] at hab
          exact absurd (hab ▸ hb) hid2
        · rw [hb', if_neg ha', if_pos rfl] at hab
          exact absurd (hab ▸ ha) hid2
        · rw [if_neg ha', if_neg hb'] at hab
          exact hab
      · have hsame : (doc.map Prod.fst).map (fun k => if k = "_id" then "id" else k)
            = doc.map Prod.fst := by
          conv_rhs => rw [← List.map_id (doc.map Prod.fst)]
          apply List.map_congr_left
          intro k hk
          rw [if_neg]
          · rfl
          · intro he
            exact hid (he ▸ hk)
        rw [hsame]
        exact hnd
    simpa using serializeAux_append doc [] hnodup

/-- C1 witness: the amended statement on a user-like document whose `_id`
and a cross-reference field hold ObjectIds. -/
theorem c1_witness :
    serialize [("_id", Value.oid oidA), ("name", Value.str "Ada"), ("friend", Value.oid oidB)]
      = [("id", Value.str oidA), ("name", Value.str "Ada"), ("friend", Value.str oidB)] ∧
    serializeOpt none = none := by
  have h := c1_serialize_renames_id
    [("_id", Value.oid oidA), ("name", Value.str "Ada"), ("friend", Value.oid oidB)]
    (by decide) (by decide)
  exact ⟨h.1.trans (by decide), h.2⟩

/-! ## C8: the two-write send sequence -/

/-- `find?` skips a prefix on which the predicate fails and picks the
appended element satisfying it. -/
theorem find?_append_last {α : Type} (p : α → Bool) (l : List α) (a : α)
    (hl : ∀ x ∈ l, p x = false) (ha : p a = true) :
    (l ++ [a]).find? p = some a := by
  induction l with
  | nil =>
    rw [List.nil_append]
    exact List.find?_cons_of_pos _ ha
  | cons x xs ih =>
    rw [List.cons_append, List.find?_cons_of_neg _ (by simp [hl x (by simp)])]
    exact ih (fun y hy => hl y (by simp [hy]))

/-- Updating the timestamp of the chat `find?` located re-locates the same
chat, now carrying the new timestamp. -/
theorem find?_updateFirst (cs : List ChatDoc) (target : String) (chat : ChatDoc) (ts : Nat)
    (h : cs.find? (fun c => c.oid == target) = some chat) :
    (updateFirst cs chat.oid ts).find? (fun c => c.oid == target)
      = some { chat with updated_at := ts } := by
  induction cs with
  | nil => simp at h
  | cons c rest ih =>
    cases hc : (c.oid == target) with
    | true =>
      rw [@List.find?_cons_of_pos _ (fun c => c.oid == target) c rest hc] at h
      injection h with h
      subst h
      simp only [updateFirst]
      rw [if_pos (beq_self_eq_true c.oid)]
      exact @List.find?_cons_of_pos _ (fun c => c.oid == target)
        ({ c with updated_at := ts }) rest hc
    | false =>
      rw [@List.find?_cons_of_neg _ (fun c => c.oid == target) c rest (by simp [hc])] at h
      have hf0 := List.find?_some h
      have hfound : (chat.oid == target) = true := hf0
      have hne : (c.oid == chat.oid) = false := by
        rw [beq_eq_false_iff_ne]
        intro he
        rw [he, hfound] at hc
        exact Bool.noConfusion hc
      simp only [updateFirst]
      rw [if_neg (by simp [hne])]
      rw [@List.find?_cons_of_neg _ (fun c => c.oid == target) c
        (updateFirst rest chat.oid ts) (by simp [hc])]
      exact ih h

/-- The message document the spec-modelled gateway inserts for a payload. -/
def msgNew (db : DB) (p : CreateMessage) : MessageDoc :=
  { oid := oidOfNat db.clock, chat_id := p.chat_id, sender_id := p.sender_id,
    content := p.content, type := p.type, created_at := db.clock }

/-- C8: whenever `send_message` answers 200, exactly one message was
appended, and the parent chat re-reads as `chat'` whose `updated_at` now
equals that message's `created_at` (hence is no earlier than it), every
other field of the chat untouched. -/
theorem c8_send_updates_chat_timestamp (db : DB) (p : CreateMessage) (db' : DB) (d : Option Doc)
    (hfresh : ∀ m ∈ db.messages, m.oid ≠ oidOfNat db.clock)
    (hok : send_message db p = (db', Resp.ok d)) :
    ∃ (msg : MessageDoc) (chat chat' : ChatDoc),
      db'.messages = db.messages ++ [msg] ∧
      db.chats.find? (fun c => c.oid == parseOid p.chat_id) = some chat ∧
      db'.chats.find? (fun c => c.oid == parseOid p.chat_id) = some chat' ∧
      chat'.updated_at = msg.created_at ∧
      chat'.oid = chat.oid ∧ chat'.title = chat.title ∧
      chat'.participants = chat.participants ∧ chat'.is_group = chat.is_group := by
  unfold send_message at hok
  by_cases hv : isValidObjectId p.chat_id
  case neg =>
    rw [if_pos (by simpa using hv)] at hok
    exact absurd (congrArg Prod.snd hok) (by simp)
  case pos =>
    rw [if_neg (by simpa using hv)] at hok
    cases hfind : db.chats.find? (fun c => c.oid == parseOid p.chat_id) with
    | none =>
      rw [hfind] at hok
      dsimp only [] at hok
      exact absurd (congrArg Prod.snd hok) (by simp)
    | some chat =>
      rw [hfind] at hok
      dsimp only [] at hok
      by_cases hmem : ((chat.participants.getD []).contains p.sender_id) = true
      case neg =>
        rw [if_pos hmem] at hok
        exact absurd (congrArg Prod.snd hok) (by simp)
      case pos =>
        rw [if_neg (not_not_intro hmem)] at hok
        rw [show create_document_message db p
            = ({ db with messages := db.messages ++ [msgNew db p], clock := db.clock + 1 },
               oidOfNat db.clock) from rfl] at hok
        have hfind2 : (db.messages ++ [msgNew db p]).find?
            (fun m => m.oid == oidOfNat db.clock) = some (msgNew db p) := by
          apply find?_append_last
          · intro x hx
            simpa using hfresh x hx
          · simp [msgNew]
        dsimp only [] at hok
        rw [hfind2] at hok
        dsimp only [] at hok
        injection hok with h1 h2
        refine ⟨msgNew db p, chat, { chat with updated_at := (msgNew db p).created_at },
          ?_, ?_, ?_, rfl, rfl, rfl, rfl, rfl⟩
        · rw [← h1]
        · rfl
        · rw [← h1]
          exact find?_updateFirst db.chats (parseOid p.chat_id) chat
            (msgNew db p).created_at hfind

/-- A valid send into `chat1` by its participant `u1`. -/
def pEx : CreateMessage :=
  { chat_id := oidA, sender_id := "u1", content := "hi", type := "text" }

/-- C8 witness: the theorem applied to the concrete successful send of
`pEx` into `dbEx`. -/
theorem c8_witness :
    ∃ (msg : MessageDoc) (chat chat' : ChatDoc),
      (send_message dbEx pEx).1.messages = dbEx.messages ++ [msg] ∧
      dbEx.chats.find? (fun c => c.oid == parseOid pEx.chat_id) = some chat ∧
      (send_message dbEx pEx).1.chats.find? (fun c => c.oid == parseOid pEx.chat_id)
        = some chat' ∧
      chat'.updated_at = msg.created_at ∧
      chat'.oid = chat.oid ∧ chat'.title = chat.title ∧
      chat'.participants = chat.participants ∧ chat'.is_group = chat.is_group :=
  c8_send_updates_chat_timestamp dbEx pEx (send_message dbEx pEx).1
    (some (serialize (msgToDoc (msgNew dbEx pEx))))
    (by intro m hm; simp [dbEx] at hm)
    (by rfl)
